import Mathlib

/-!
# P2P control-plane client (`p2p.go`)

A shallow embedding of the six operations of `p2p.go`
(`P2POpenListener`, `P2PCloseListener`, `P2PListListeners`, `P2PStreamDial`,
`P2PCloseStream`, `P2PListStreams`) and theorems about them.

Every operation is a pure function of the shell it runs against.  The calls an
operation makes to its collaborators (address codec, transport, JSON decoder,
`Response.Close`) are recorded, in program order, in a trace that is returned
next to the Go return values.
-/

set_option autoImplicit false

namespace P2P

/-! ## Errors, requests, replies -/

/-- Go `error` values that reach the operations of `p2p.go`.  `other` stands for
any error made by a collaborator (address codec, HTTP transport, daemon); the two
remaining constructors are the errors of `encoding/json`.

An `UnmarshalTypeError` is kept as the kind of the offending JSON value, the Go
type it was to be stored in, and the place of the value in the document: the
member and element indices leading to it from the root.  Go reports that place
as a byte offset and a field path, which determine each other for a given
document. -/
inductive GoError where
  | other (msg : String)
  | jsonInvalid (msg : String)
  | unmarshalType (value : String) (goType : String) (place : List Nat)
  deriving DecidableEq

/-- The options map `Request.Opts` (`map[string]string`), kept as an association
list holding at most one pair per key that was assigned. -/
abbrev Opts := List (String × String)

/-- Go map assignment `m[k] = v`. -/
def Opts.assign (m : Opts) (k v : String) : Opts :=
  (k, v) :: m.filter (fun kv => kv.1 != k)

/-- Go map read `m[k]` (with presence). -/
def Opts.get (m : Opts) (k : String) : Option String :=
  m.lookup k

/-- The part of `Request` that `p2p.go` determines: command path, positional
arguments and options. -/
structure Request where
  Command : String
  Args : List String
  Opts : Opts
  deriving DecidableEq

/-- JSON values, as the scanner of `encoding/json` delimits them. -/
inductive Json where
  | null
  | bool (b : Bool)
  | num (lit : String)
  | str (s : String)
  | arr (elems : List Json)
  | obj (members : List (String × Json))

/-- The reply payload `Response.Output`, abstracted to what reading the next JSON
value from it gives: an error (syntax error, premature end, failed read) or a
JSON value. -/
inductive Body where
  | invalid (err : GoError)
  | value (v : Json)

/-- The fields of `Response` that `p2p.go` reads. -/
structure Response where
  Output : Body
  Error : Option GoError

/-- Calls made to collaborators, in program order. -/
inductive Event where
  | validate (maddr : String)
  | send (req : Request)
  | decode
  | close
  deriving DecidableEq

/-- The collaborators of a `Shell`.

* `NewMultiaddr` is the error result of `ma.NewMultiaddr` (its first result is
  discarded by every caller in `p2p.go`);
* `baseOpts` are the options a fresh request starts with;
* `Send` is `Request.Send(s.httpcli)`: a transport error, or a response. -/
structure Shell where
  NewMultiaddr : String → Option GoError
  baseOpts : Opts
  Send : Request → Except GoError Response

/-- Modelled from the spec: `Shell.newRequest` is defined outside `p2p.go`.  It
makes the request for the named remote operation with the given positional
arguments; what options a fresh request carries is left to the shell. -/
def Shell.newRequest (s : Shell) (command : String) (args : List String) : Request :=
  { Command := command, Args := args, Opts := s.baseOpts }

/-- Go `strconv.FormatBool`. -/
def FormatBool (b : Bool) : String :=
  if b then "true" else "false"

/-- Go return values `(*T, error)` together with the trace of collaborator calls. -/
structure Ret (α : Type) where
  result : Option α
  err : Option GoError
  trace : List Event
  deriving DecidableEq

/-- Go return value `error` together with the trace of collaborator calls. -/
structure RetErr where
  err : Option GoError
  trace : List Event
  deriving DecidableEq

/-- The requests handed to the transport, in order. -/
def sent : List Event → List Request
  | [] => []
  | Event.send r :: es => r :: sent es
  | _ :: es => sent es

/-! ## Close operations -/

/-- `Shell.P2PCloseListener` (p2p.go, lines 43-63). -/
def P2PCloseListener (s : Shell) (protocol : String) (closeAll : Bool) : RetErr :=
  let args : List String := if protocol ≠ "" then [] ++ [protocol] else []
  let req := s.newRequest "p2p/listener/close" args
  let req := { req with Opts := req.Opts.assign "all" (FormatBool closeAll) }
  match s.Send req with
  | .error err => ⟨some err, [.send req]⟩
  | .ok resp =>
    match resp.Error with
    | some e => ⟨some e, [.send req, .close]⟩
    | none => ⟨none, [.send req, .close]⟩

/-- `Shell.P2PCloseStream` (p2p.go, lines 128-148). -/
def P2PCloseStream (s : Shell) (handlerID : String) (closeAll : Bool) : RetErr :=
  let args : List String := if handlerID ≠ "" then [] ++ [handlerID] else []
  let req := s.newRequest "p2p/stream/close" args
  let req := { req with Opts := req.Opts.assign "all" (FormatBool closeAll) }
  match s.Send req with
  | .error err => ⟨some err, [.send req]⟩
  | .ok resp =>
    match resp.Error with
    | some e => ⟨some e, [.send req, .close]⟩
    | none => ⟨none, [.send req, .close]⟩

/-! ## Decoding replies

`json.NewDecoder(resp.Output).Decode(&response)` with `response` a nil pointer to
a struct.  The model follows the documented behaviour of `encoding/json`:

* a body that does not scan yields the scanner's error and stores nothing;
* the JSON value `null` leaves the pointer nil and is not an error;
* a JSON object allocates the struct and stores its members in document order
  into the fields they name (exact name first, then a case-insensitive match);
  members naming no field are skipped;
* any other JSON value is an `UnmarshalTypeError`;
* an array stored into a slice reuses the pointers of the backing array, those
  behind the current length included, and leaves the rest of the backing array
  behind the new length.

`Decode` reports the first type error it met; the callers in `p2p.go` drop the
pointer whenever `Decode` reports an error, so the model stops at that error. -/

/-- The `Value` text of an `UnmarshalTypeError` for a JSON value. -/
def Json.kind : Json → String
  | .null => "null"
  | .bool _ => "bool"
  | .num _ => "number"
  | .str _ => "string"
  | .arr _ => "array"
  | .obj _ => "object"

/-- Case folding of one character of an object key.  ASCII letters fold to upper
case; U+017F (long s) and U+212A (Kelvin sign) are the only characters outside
ASCII that fold to an ASCII letter.  The field names of `p2p.go` are ASCII, so
other characters can be left alone. -/
def foldRune (c : Char) : Char :=
  if 'a' ≤ c ∧ c ≤ 'z' then Char.ofNat (c.toNat - 32)
  else if c = Char.ofNat 0x17F then 'S'
  else if c = Char.ofNat 0x212A then 'K'
  else c

/-- Folded form of an object key or field name. -/
def foldName (name : String) : List Char :=
  name.data.map foldRune

/-- The struct field an object key selects: the field of that exact name,
otherwise the first field equal to it under case folding. -/
def matchField (fields : List String) (key : String) : Option String :=
  match fields.find? (fun f => f == key) with
  | some f => some f
  | none => fields.find? (fun f => foldName f == foldName key)

/-- Storing the JSON value found at `place` into a Go `string` that currently
holds `cur`. -/
def storeString (place : List Nat) (cur : String) (v : Json) : Except GoError String :=
  match v with
  | .str s => .ok s
  | .null => .ok cur
  | other => .error (.unmarshalType other.kind "string" place)

/-- Storing the members of the JSON object found at `place` into a struct, in
document order; `i` is the index of the first member of the list. -/
def storeMembers {α : Type} (fields : List String)
    (store : List Nat → String → Json → α → Except GoError α) (place : List Nat) :
    Nat → List (String × Json) → α → Except GoError α
  | _, [], acc => .ok acc
  | i, (key, v) :: rest, acc =>
    match matchField fields key with
    | none => storeMembers fields store place (i + 1) rest acc
    | some f =>
      match store (place ++ [i]) f v acc with
      | .error e => .error e
      | .ok acc' => storeMembers fields store place (i + 1) rest acc'

/-- Storing the JSON value found at `place` into a pointer to a struct.  `cur` is
what the pointer holds (`none` for nil), `zero` the zero value of the struct. -/
def storePtr {α : Type} (goType : String) (zero : α) (fields : List String)
    (store : List Nat → String → Json → α → Except GoError α) (place : List Nat)
    (cur : Option α) (v : Json) : Except GoError (Option α) :=
  match v with
  | .null => .ok none
  | .obj members =>
    match storeMembers fields store place 0 members (cur.getD zero) with
    | .error e => .error e
    | .ok x => .ok (some x)
  | other => .error (.unmarshalType other.kind goType place)

/-- A Go slice of pointers to structs: the elements up to its length (`none` for
a nil pointer), and the pointers its backing array still holds between length
and capacity.  The nil slice and the empty slice without capacity are both
`⟨[], []⟩`. -/
structure Slice (α : Type) where
  elems : List (Option α)
  spare : List (Option α)
  deriving DecidableEq

/-- Storing the elements of the JSON array found at `place` into a backing
array: element `i` is stored into the pointer the backing array holds at `i`,
or into a nil pointer where the array had to grow. -/
def storePtrs {α : Type} (goType : String) (zero : α) (fields : List String)
    (store : List Nat → String → Json → α → Except GoError α) (place : List Nat) :
    Nat → List Json → List (Option α) → Except GoError (List (Option α))
  | _, [], _ => .ok []
  | i, v :: rest, backing =>
    match storePtr goType zero fields store (place ++ [i]) backing.head?.join v with
    | .error e => .error e
    | .ok x =>
      match storePtrs goType zero fields store place (i + 1) rest backing.tail with
      | .error e => .error e
      | .ok xs => .ok (x :: xs)

/-- Storing the JSON value found at `place` into a slice of pointers to structs
that currently holds `cur`.  `null` makes the slice nil and an empty array makes
it a fresh empty slice; a longer array is stored over the backing array, whose
remaining pointers stay behind the new length. -/
def storeSlice {α : Type} (goType : String) (zero : α) (fields : List String)
    (store : List Nat → String → Json → α → Except GoError α) (place : List Nat)
    (cur : Slice α) (v : Json) : Except GoError (Slice α) :=
  match v with
  | .null => .ok ⟨[], []⟩
  | .arr [] => .ok ⟨[], []⟩
  | .arr elems =>
    match storePtrs goType zero fields store place 0 elems (cur.elems ++ cur.spare) with
    | .error e => .error e
    | .ok xs => .ok ⟨xs, (cur.elems ++ cur.spare).drop xs.length⟩
  | other => .error (.unmarshalType other.kind ("[]*" ++ goType) place)

/-- `Decode(&response)` on a reply body, for a nil pointer `response`. -/
def decodeBody {α : Type} (goType : String) (zero : α) (fields : List String)
    (store : List Nat → String → Json → α → Except GoError α) (body : Body) :
    Except GoError (Option α) :=
  match body with
  | .invalid err => .error err
  | .value v => storePtr goType zero fields store [] none v

/-! ## Listeners -/

/-- `P2PListener` (p2p.go, lines 11-15). -/
structure P2PListener where
  Protocol : String
  Address : String
  deriving DecidableEq

/-- Storing a member value into the named field of a `P2PListener`. -/
def P2PListener.store (place : List Nat) (field : String) (v : Json) (l : P2PListener) :
    Except GoError P2PListener :=
  if field = "Protocol" then
    match storeString place l.Protocol v with
    | .error e => .error e
    | .ok x => .ok { l with Protocol := x }
  else if field = "Address" then
    match storeString place l.Address v with
    | .error e => .error e
    | .ok x => .ok { l with Address := x }
  else .ok l

/-- Decoding a reply body into `var response *P2PListener`. -/
def decodeListener (body : Body) : Except GoError (Option P2PListener) :=
  decodeBody "shell.P2PListener" ⟨"", ""⟩ ["Protocol", "Address"] P2PListener.store body

/-- `Shell.P2POpenListener` (p2p.go, lines 17-40). -/
def P2POpenListener (s : Shell) (protocol maddr : String) : Ret P2PListener :=
  match s.NewMultiaddr maddr with
  | some err => ⟨none, some err, [.validate maddr]⟩
  | none =>
    let req := s.newRequest "p2p/listener/open" [protocol, maddr]
    match s.Send req with
    | .error err => ⟨none, some err, [.validate maddr, .send req]⟩
    | .ok resp =>
      match resp.Error with
      | some e => ⟨none, some e, [.validate maddr, .send req, .close]⟩
      | none =>
        match decodeListener resp.Output with
        | .error err => ⟨none, some err, [.validate maddr, .send req, .decode, .close]⟩
        | .ok response => ⟨response, none, [.validate maddr, .send req, .decode, .close]⟩

/-- `P2PListenerList` (p2p.go, lines 65-68). -/
structure P2PListenerList where
  Listeners : Slice P2PListener
  deriving DecidableEq

/-- Storing a member value into the named field of a `P2PListenerList`. -/
def P2PListenerList.store (place : List Nat) (field : String) (v : Json)
    (l : P2PListenerList) : Except GoError P2PListenerList :=
  if field = "Listeners" then
    match storeSlice "shell.P2PListener" ⟨"", ""⟩ ["Protocol", "Address"]
        P2PListener.store place l.Listeners v with
    | .error e => .error e
    | .ok x => .ok { l with Listeners := x }
  else .ok l

/-- Decoding a reply body into `var response *P2PListenerList`. -/
def decodeListenerList (body : Body) : Except GoError (Option P2PListenerList) :=
  decodeBody "shell.P2PListenerList" ⟨⟨[], []⟩⟩ ["Listeners"] P2PListenerList.store body

/-- `Shell.P2PListListeners` (p2p.go, lines 70-89). -/
def P2PListListeners (s : Shell) : Ret P2PListenerList :=
  let req := s.newRequest "p2p/listener/ls" []
  match s.Send req with
  | .error err => ⟨none, some err, [.send req]⟩
  | .ok resp =>
    match resp.Error with
    | some e => ⟨none, some e, [.send req, .close]⟩
    | none =>
      match decodeListenerList resp.Output with
      | .error err => ⟨none, some err, [.send req, .decode, .close]⟩
      | .ok response => ⟨response, none, [.send req, .decode, .close]⟩

/-! ## Streams -/

/-- `P2PStream` (p2p.go, lines 91-95). -/
structure P2PStream where
  Protocol : String
  Address : String
  deriving DecidableEq

/-- Storing a member value into the named field of a `P2PStream`. -/
def P2PStream.store (place : List Nat) (field : String) (v : Json) (l : P2PStream) :
    Except GoError P2PStream :=
  if field = "Protocol" then
    match storeString place l.Protocol v with
    | .error e => .error e
    | .ok x => .ok { l with Protocol := x }
  else if field = "Address" then
    match storeString place l.Address v with
    | .error e => .error e
    | .ok x => .ok { l with Address := x }
  else .ok l

/-- Decoding a reply body into `var response *P2PStream`. -/
def decodeStream (body : Body) : Except GoError (Option P2PStream) :=
  decodeBody "shell.P2PStream" ⟨"", ""⟩ ["Protocol", "Address"] P2PStream.store body

/-- `Shell.P2PStreamDial` (p2p.go, lines 97-125). -/
def P2PStreamDial (s : Shell) (peerID protocol listenerMaddr : String) : Ret P2PStream :=
  match s.NewMultiaddr listenerMaddr with
  | some err => ⟨none, some err, [.validate listenerMaddr]⟩
  | none =>
    let args : List String := [peerID, protocol]
    let args : List String := if listenerMaddr ≠ "" then args ++ [listenerMaddr] else args
    let req := s.newRequest "p2p/stream/dial" args
    match s.Send req with
    | .error err => ⟨none, some err, [.validate listenerMaddr, .send req]⟩
    | .ok resp =>
      match resp.Error with
      | some e => ⟨none, some e, [.validate listenerMaddr, .send req, .close]⟩
      | none =>
        match decodeStream resp.Output with
        | .error err =>
          ⟨none, some err, [.validate listenerMaddr, .send req, .decode, .close]⟩
        | .ok response =>
          ⟨response, none, [.validate listenerMaddr, .send req, .decode, .close]⟩

/-- The anonymous struct of `P2PStreamsList.Streams` (p2p.go, lines 152-159). -/
structure P2PStreamsListEntry where
  HandlerID : String
  Protocol : String
  LocalPeer : String
  LocalAddress : String
  RemotePeer : String
  RemoteAddress : String
  deriving DecidableEq

/-- Field names of the anonymous struct of `P2PStreamsList.Streams`. -/
def P2PStreamsListEntry.fields : List String :=
  ["HandlerID", "Protocol", "LocalPeer", "LocalAddress", "RemotePeer", "RemoteAddress"]

/-- Zero value of the anonymous struct of `P2PStreamsList.Streams`. -/
def P2PStreamsListEntry.zero : P2PStreamsListEntry :=
  ⟨"", "", "", "", "", ""⟩

/-- Storing a member value into the named field of a stream entry. -/
def P2PStreamsListEntry.store (place : List Nat) (field : String) (v : Json)
    (x : P2PStreamsListEntry) : Except GoError P2PStreamsListEntry :=
  if field = "HandlerID" then
    match storeString place x.HandlerID v with
    | .error e => .error e
    | .ok y => .ok { x with HandlerID := y }
  else if field = "Protocol" then
    match storeString place x.Protocol v with
    | .error e => .error e
    | .ok y => .ok { x with Protocol := y }
  else if field = "LocalPeer" then
    match storeString place x.LocalPeer v with
    | .error e => .error e
    | .ok y => .ok { x with LocalPeer := y }
  else if field = "LocalAddress" then
    match storeString place x.LocalAddress v with
    | .error e => .error e
    | .ok y => .ok { x with LocalAddress := y }
  else if field = "RemotePeer" then
    match storeString place x.RemotePeer v with
    | .error e => .error e
    | .ok y => .ok { x with RemotePeer := y }
  else if field = "RemoteAddress" then
    match storeString place x.RemoteAddress v with
    | .error e => .error e
    | .ok y => .ok { x with RemoteAddress := y }
  else .ok x

/-- The Go type text of the anonymous struct of `P2PStreamsList.Streams`. -/
def P2PStreamsListEntry.goType : String :=
  "struct \x7b HandlerID string; Protocol string; LocalPeer string; LocalAddress string; " ++
  "RemotePeer string; RemoteAddress string \x7d"

/-- `P2PStreamsList` (p2p.go, lines 150-160). -/
structure P2PStreamsList where
  Streams : Slice P2PStreamsListEntry
  deriving DecidableEq

/-- Storing a member value into the named field of a `P2PStreamsList`. -/
def P2PStreamsList.store (place : List Nat) (field : String) (v : Json)
    (l : P2PStreamsList) : Except GoError P2PStreamsList :=
  if field = "Streams" then
    match storeSlice P2PStreamsListEntry.goType P2PStreamsListEntry.zero
        P2PStreamsListEntry.fields P2PStreamsListEntry.store place l.Streams v with
    | .error e => .error e
    | .ok x => .ok { l with Streams := x }
  else .ok l

/-- Decoding a reply body into `var response *P2PStreamsList`. -/
def decodeStreamsList (body : Body) : Except GoError (Option P2PStreamsList) :=
  decodeBody "shell.P2PStreamsList" ⟨⟨[], []⟩⟩ ["Streams"] P2PStreamsList.store body

/-- `Shell.P2PListStreams` (p2p.go, lines 162-183). -/
def P2PListStreams (s : Shell) : Ret P2PStreamsList :=
  let req := s.newRequest "p2p/stream/ls" []
  let req := { req with Opts := req.Opts.assign "headers" (FormatBool true) }
  match s.Send req with
  | .error err => ⟨none, some err, [.send req]⟩
  | .ok resp =>
    match resp.Error with
    | some e => ⟨none, some e, [.send req, .close]⟩
    | none =>
      match decodeStreamsList resp.Output with
      | .error err => ⟨none, some err, [.send req, .decode, .close]⟩
      | .ok response => ⟨response, none, [.send req, .decode, .close]⟩

/-! ## Test doubles -/

/-- A codec double: it rejects the empty string and every string that does not
begin with `/`, and accepts the rest. -/
def slashCodec (maddr : String) : Option GoError :=
  match maddr.data with
  | [] => some (.other "empty multiaddr")
  | '/' :: _ => none
  | _ => some (.other "must begin with /")

/-- A shell double whose transport gives the same outcome to every request. -/
def stubShell (outcome : Except GoError Response) : Shell :=
  { NewMultiaddr := slashCodec
    baseOpts := [("encoding", "json"), ("stream-channels", "true")]
    Send := fun _ => outcome }

/-- A successful reply with the given body. -/
def okReply (body : Body) : Except GoError Response :=
  .ok { Output := body, Error := none }

/-- A reply carrying a remote error; its body is not readable. -/
def remoteError (msg : String) : Except GoError Response :=
  .ok { Output := .invalid (.other "closed"), Error := some (.other msg) }

/-! ## Vocabulary of the statements -/

/-- The request a close operation sends for a selector and a bulk flag: the
selector is the only positional argument, and is left out when empty; the flag
is the `all` option, written as text. -/
def closeRequest (s : Shell) (command selector : String) (closeAll : Bool) : Request :=
  { Command := command
    Args := if selector = "" then [] else [selector]
    Opts := s.baseOpts.assign "all" (if closeAll then "true" else "false") }

/-- Either way an exchange with the daemon fails with `e`: the transport's send
fails with `e`, or the reply carries the remote error `e`. -/
def Shell.failsWith (s : Shell) (req : Request) (e : GoError) : Prop :=
  s.Send req = .error e ∨ ∃ out, s.Send req = .ok { Output := out, Error := some e }

/-- The two complete outcomes of an operation: a present result and no error, or
an error and no result. -/
def Ret.complete {α : Type} (r : Ret α) : Prop :=
  (r.result.isSome = true ∧ r.err = none) ∨ (r.result = none ∧ r.err.isSome = true)

/-- The transport answers the request with a successful reply (no remote error)
whose body is the JSON value `null`. -/
def Shell.repliesNull (s : Shell) (req : Request) : Prop :=
  ∃ resp, s.Send req = .ok resp ∧ resp.Error = none ∧ resp.Output = .value .null

/-- The positional arguments of a stream dial: the listener address comes third
and is left out when empty. -/
def dialArgs (peerID protocol listenerMaddr : String) : List String :=
  if listenerMaddr = "" then [peerID, protocol] else [peerID, protocol, listenerMaddr]

/-- The error an exchange with the daemon ends in, if any: the transport's own
error, otherwise the remote error of the reply. -/
def exchangeError : Except GoError Response → Option GoError
  | .error e => some e
  | .ok resp => resp.Error

/-- What an operation returns once its request has gone to the transport:
results of `Send`, of the remote-error check and of `Decode`, in that order. -/
def afterSend {α : Type} (dec : Body → Except GoError (Option α))
    (out : Except GoError Response) : Option α × Option GoError :=
  match out with
  | .error e => (none, some e)
  | .ok resp =>
    match resp.Error with
    | some e => (none, some e)
    | none =>
      match dec resp.Output with
      | .error e => (none, some e)
      | .ok r => (r, none)

/-- Whether a decoding step reported an error. -/
def failed {α : Type} : Except GoError α → Bool
  | .error _ => true
  | .ok _ => false

/-- A JSON value that a Go `string` takes: a string or `null`. -/
def Json.fitsString : Json → Bool
  | .str _ => true
  | .null => true
  | _ => false

/-- The members of a JSON object fit a struct when every member whose key names
one of its fields holds a value that the field takes (`ok`); members naming no
field do not matter. -/
def fitsMembers (fields : List String) (ok : Json → Bool)
    (members : List (String × Json)) : Bool :=
  members.all (fun kv => (matchField fields kv.1).isNone || ok kv.2)

/-- A JSON value that a pointer to a struct takes: `null`, or an object whose
members fit the struct. -/
def Json.fitsPtr (fields : List String) (ok : Json → Bool) : Json → Bool
  | .null => true
  | .obj members => fitsMembers fields ok members
  | _ => false

/-- A JSON value that a slice of pointers to structs takes: `null`, or an array
whose elements each fit a pointer to the struct. -/
def Json.fitsSlice (fields : List String) (ok : Json → Bool) : Json → Bool
  | .null => true
  | .arr elems => elems.all (Json.fitsPtr fields ok)
  | _ => false

/-- A reply body that `*P2PListenerList` takes: it scans, and its value is `null`
or an object in which every member naming `Listeners` is `null` or an array, the
elements being `null` or objects in which every member naming `Protocol` or
`Address` is a string or `null`. -/
def Body.fitsListenerList : Body → Bool
  | .invalid _ => false
  | .value v =>
    v.fitsPtr ["Listeners"] (Json.fitsSlice ["Protocol", "Address"] Json.fitsString)

/-- A reply body that `*P2PStreamsList` takes: as for the listener list, with
`Streams` as the list field and the six string fields of a stream entry. -/
def Body.fitsStreamsList : Body → Bool
  | .invalid _ => false
  | .value v =>
    v.fitsPtr ["Streams"] (Json.fitsSlice P2PStreamsListEntry.fields Json.fitsString)

/-- Following the spec (sections 3 and 6), an entry of a list reply: a JSON
object holding a string under each field name of the entity. -/
def Json.isEntry (fields : List String) : Json → Bool
  | .obj members =>
    fields.all (fun f =>
      match members.lookup f with
      | some (.str _) => true
      | _ => false)
  | _ => false

/-- Following the spec (sections 3 and 6), the expected shape of a list reply: a
JSON object holding, under the name of the list, an array of entries. -/
def Body.hasListShape (listField : String) (fields : List String) : Body → Bool
  | .value (.obj members) =>
    match members.lookup listField with
    | some (.arr elems) => elems.all (Json.isEntry fields)
    | _ => false
  | _ => false

/-! ## Lemmas on options -/

theorem Opts.get_assign_self (m : Opts) (k v : String) :
    (m.assign k v).get k = some v := by
  simp [Opts.assign, Opts.get, List.lookup]

theorem Opts.lookup_filter_ne (m : Opts) (k k' : String) (h : k' ≠ k) :
    (m.filter (fun kv => kv.1 != k)).lookup k' = m.lookup k' := by
  induction m with
  | nil => rfl
  | cons kv rest ih =>
    obtain ⟨a, b⟩ := kv
    by_cases hak : a = k
    · subst hak
      have hne : (k' == a) = false := by simpa using h
      simp [List.filter, List.lookup, hne, ih]
    · have hf : (a != k) = true := by simpa using hak
      simp only [List.filter, hf, List.lookup]
      rw [ih]

theorem Opts.get_assign_other (m : Opts) (k v k' : String) (h : k' ≠ k) :
    (m.assign k v).get k' = m.get k' := by
  have hne : (k' == k) = false := by simpa using h
  simp only [Opts.assign, Opts.get, List.lookup, hne]
  exact Opts.lookup_filter_ne m k k' h

/-! ## Requests sent by the operations -/

theorem closeArgs_eq (x : String) :
    (if x ≠ "" then [] ++ [x] else ([] : List String)) = if x = "" then [] else [x] := by
  by_cases hx : x = "" <;> simp [hx]

theorem sent_closeListener (s : Shell) (p : String) (b : Bool) :
    sent (P2PCloseListener s p b).trace = [closeRequest s "p2p/listener/close" p b] := by
  unfold P2PCloseListener closeRequest Shell.newRequest FormatBool
  simp only [closeArgs_eq]
  split
  · simp [sent]
  · split <;> simp [sent]

theorem sent_closeStream (s : Shell) (x : String) (b : Bool) :
    sent (P2PCloseStream s x b).trace = [closeRequest s "p2p/stream/close" x b] := by
  unfold P2PCloseStream closeRequest Shell.newRequest FormatBool
  simp only [closeArgs_eq]
  split
  · simp [sent]
  · split <;> simp [sent]

theorem err_closeListener (s : Shell) (p : String) (b : Bool) :
    (P2PCloseListener s p b).err
      = exchangeError (s.Send (closeRequest s "p2p/listener/close" p b)) := by
  unfold P2PCloseListener closeRequest Shell.newRequest FormatBool exchangeError
  simp only [closeArgs_eq]
  split
  · rfl
  · split <;> simp_all

theorem err_closeStream (s : Shell) (x : String) (b : Bool) :
    (P2PCloseStream s x b).err
      = exchangeError (s.Send (closeRequest s "p2p/stream/close" x b)) := by
  unfold P2PCloseStream closeRequest Shell.newRequest FormatBool exchangeError
  simp only [closeArgs_eq]
  split
  · rfl
  · split <;> simp_all

/-! ## Address validation -/

/-- C1: when the address codec rejects the address with error `e`, both
`P2POpenListener` and `P2PStreamDial` return no result together with `e`, and
no request is handed to the transport. -/
theorem rejected_address_short_circuits (s : Shell) (peerID protocol maddr : String)
    (e : GoError) (h : s.NewMultiaddr maddr = some e) :
    (P2POpenListener s protocol maddr).result = none ∧
    (P2POpenListener s protocol maddr).err = some e ∧
    (P2POpenListener s protocol maddr).trace = [.validate maddr] ∧
    sent (P2POpenListener s protocol maddr).trace = [] ∧
    (P2PStreamDial s peerID protocol maddr).result = none ∧
    (P2PStreamDial s peerID protocol maddr).err = some e ∧
    (P2PStreamDial s peerID protocol maddr).trace = [.validate maddr] ∧
    sent (P2PStreamDial s peerID protocol maddr).trace = [] := by
  simp [P2POpenListener, P2PStreamDial, h, sent]

theorem rejected_address_short_circuits_witness :
    (P2POpenListener (stubShell (okReply (.value .null))) "echo" "ip4/0.0.0.0").result = none ∧
    (P2POpenListener (stubShell (okReply (.value .null))) "echo" "ip4/0.0.0.0").err
      = some (.other "must begin with /") ∧
    (P2POpenListener (stubShell (okReply (.value .null))) "echo" "ip4/0.0.0.0").trace
      = [.validate "ip4/0.0.0.0"] ∧
    sent (P2POpenListener (stubShell (okReply (.value .null))) "echo" "ip4/0.0.0.0").trace = [] ∧
    (P2PStreamDial (stubShell (okReply (.value .null))) "QmPeer" "echo" "ip4/0.0.0.0").result
      = none ∧
    (P2PStreamDial (stubShell (okReply (.value .null))) "QmPeer" "echo" "ip4/0.0.0.0").err
      = some (.other "must begin with /") ∧
    (P2PStreamDial (stubShell (okReply (.value .null))) "QmPeer" "echo" "ip4/0.0.0.0").trace
      = [.validate "ip4/0.0.0.0"] ∧
    sent (P2PStreamDial (stubShell (okReply (.value .null))) "QmPeer" "echo" "ip4/0.0.0.0").trace
      = [] :=
  rejected_address_short_circuits (stubShell (okReply (.value .null))) "QmPeer" "echo"
    "ip4/0.0.0.0" (.other "must begin with /") (by decide)

/-- C2: `P2PStreamDial` hands the listener address to the codec before anything
else, the empty one included; against a codec that rejects the empty string,
`P2PStreamDial("QmPeer", "/x/echo", "")` returns the codec's error and sends no
request. -/
theorem dial_validates_empty_address :
    (∀ (s : Shell) (peerID protocol : String),
      (P2PStreamDial s peerID protocol "").trace.head? = some (Event.validate "")) ∧
    P2PStreamDial (stubShell (okReply (.value (.obj [])))) "QmPeer" "/x/echo" ""
      = ⟨none, some (.other "empty multiaddr"), [.validate ""]⟩ := by
  refine ⟨?_, by decide⟩
  intro s peerID protocol
  unfold P2PStreamDial
  split
  · rfl
  · simp only
    split
    · rfl
    · split
      · rfl
      · split <;> rfl

/-- When the codec accepts the empty string, `P2PStreamDial` with an empty
listener address sends the two positional arguments `peerID`, `protocol`. -/
theorem dial_empty_address_args (s : Shell) (peerID protocol : String)
    (h : s.NewMultiaddr "" = none) :
    sent (P2PStreamDial s peerID protocol "").trace
      = [s.newRequest "p2p/stream/dial" [peerID, protocol]] := by
  unfold P2PStreamDial
  simp only [h, ne_eq, not_true_eq_false, if_false]
  split
  · simp [sent]
  · split
    · simp [sent]
    · split <;> simp [sent]

/-! ## Request assembly -/

theorem sent_openListener (s : Shell) (protocol maddr : String)
    (h : s.NewMultiaddr maddr = none) :
    sent (P2POpenListener s protocol maddr).trace
      = [s.newRequest "p2p/listener/open" [protocol, maddr]] := by
  unfold P2POpenListener
  simp only [h]
  split
  · simp [sent]
  · split
    · simp [sent]
    · split <;> simp [sent]

theorem sent_streamDial (s : Shell) (peerID protocol maddr : String)
    (h : s.NewMultiaddr maddr = none) (hne : maddr ≠ "") :
    sent (P2PStreamDial s peerID protocol maddr).trace
      = [s.newRequest "p2p/stream/dial" [peerID, protocol, maddr]] := by
  unfold P2PStreamDial
  simp only [h, ne_eq, hne, not_false_eq_true, if_true, List.cons_append, List.nil_append]
  split
  · simp [sent]
  · split
    · simp [sent]
    · split <;> simp [sent]

theorem sent_listListeners (s : Shell) :
    sent (P2PListListeners s).trace = [s.newRequest "p2p/listener/ls" []] := by
  unfold P2PListListeners
  simp only
  split
  · simp [sent]
  · split
    · simp [sent]
    · split <;> simp [sent]

theorem sent_listStreams (s : Shell) :
    sent (P2PListStreams s).trace
      = [{ s.newRequest "p2p/stream/ls" [] with
            Opts := (s.newRequest "p2p/stream/ls" []).Opts.assign "headers" "true" }] := by
  unfold P2PListStreams FormatBool
  simp only [if_true]
  split
  · simp [sent]
  · split
    · simp [sent]
    · split <;> simp [sent]

/-- C3: `P2PCloseListener(p, b)` sends one request, named `p2p/listener/close`,
whose positional arguments are `[]` for an empty `p` and `[p]` otherwise and
whose `all` option is set to the text `"true"` or `"false"` of `b`; the requests
for `b = false` and `b = true` are distinct, with the same name and the same
arguments, and agree on every option other than `all`. -/
theorem closeListener_request (s : Shell) (p : String) (b : Bool) :
    (∃ r, sent (P2PCloseListener s p b).trace = [r] ∧
      r.Command = "p2p/listener/close" ∧
      r.Args = (if p = "" then [] else [p]) ∧
      r.Opts.get "all" = some (if b then "true" else "false")) ∧
    (∃ r0 r1, sent (P2PCloseListener s p false).trace = [r0] ∧
      sent (P2PCloseListener s p true).trace = [r1] ∧
      r0 ≠ r1 ∧ r0.Command = r1.Command ∧ r0.Args = r1.Args ∧
      r0.Opts.get "all" = some "false" ∧ r1.Opts.get "all" = some "true" ∧
      ∀ k, k ≠ "all" → r0.Opts.get k = r1.Opts.get k) := by
  refine ⟨⟨_, sent_closeListener s p b, rfl, rfl, Opts.get_assign_self _ _ _⟩,
    ⟨_, _, sent_closeListener s p false, sent_closeListener s p true, ?_, rfl, rfl,
      Opts.get_assign_self _ _ _, Opts.get_assign_self _ _ _, ?_⟩⟩
  · intro heq
    have hget := congrArg (fun r => r.Opts.get "all") heq
    simp only [closeRequest, Opts.get_assign_self] at hget
    exact absurd hget (by decide)
  · intro k hk
    simp only [closeRequest]
    rw [Opts.get_assign_other _ _ _ _ hk, Opts.get_assign_other _ _ _ _ hk]

/-- C6: an address the codec accepts is forwarded unchanged: `P2POpenListener`
sends the positional arguments `[protocol, a]`, and for a non-empty `a`
`P2PStreamDial` sends `[peerID, protocol, a]`, with `a` third. -/
theorem accepted_address_forwarded (s : Shell) (peerID protocol a : String)
    (h : s.NewMultiaddr a = none) :
    (∃ r, sent (P2POpenListener s protocol a).trace = [r] ∧
      r.Command = "p2p/listener/open" ∧ r.Args = [protocol, a]) ∧
    (a ≠ "" → ∃ r, sent (P2PStreamDial s peerID protocol a).trace = [r] ∧
      r.Command = "p2p/stream/dial" ∧ r.Args = [peerID, protocol, a] ∧
      r.Args.get? 2 = some a) := by
  refine ⟨⟨_, sent_openListener s protocol a h, rfl, rfl⟩, ?_⟩
  intro hne
  exact ⟨_, sent_streamDial s peerID protocol a h hne, rfl, rfl, rfl⟩

theorem accepted_address_forwarded_witness :
    (∃ r, sent (P2POpenListener (stubShell (okReply (.value .null))) "echo"
        "/ip4/1.2.3.4/tcp/4001").trace = [r] ∧
      r.Command = "p2p/listener/open" ∧ r.Args = ["echo", "/ip4/1.2.3.4/tcp/4001"]) ∧
    ∃ r, sent (P2PStreamDial (stubShell (okReply (.value .null))) "QmPeer" "echo"
        "/ip4/1.2.3.4/tcp/4001").trace = [r] ∧
      r.Command = "p2p/stream/dial" ∧ r.Args = ["QmPeer", "echo", "/ip4/1.2.3.4/tcp/4001"] ∧
      r.Args.get? 2 = some "/ip4/1.2.3.4/tcp/4001" :=
  ⟨(accepted_address_forwarded (stubShell (okReply (.value .null))) "QmPeer" "echo"
      "/ip4/1.2.3.4/tcp/4001" (by decide)).1,
   (accepted_address_forwarded (stubShell (okReply (.value .null))) "QmPeer" "echo"
      "/ip4/1.2.3.4/tcp/4001" (by decide)).2 (by decide)⟩

/-- C8: `P2PListListeners` sends one request with no positional argument and
with the options of a fresh request, none assigned; `P2PListStreams` sends one
request with no positional argument whose options are those of a fresh request
after the single assignment `headers = "true"`; neither touches the `all`
option. -/
theorem list_requests (s : Shell) :
    (∃ r, sent (P2PListListeners s).trace = [r] ∧
      r.Command = "p2p/listener/ls" ∧ r.Args = [] ∧
      r.Opts = (s.newRequest "p2p/listener/ls" []).Opts ∧
      r.Opts.get "all" = s.baseOpts.get "all") ∧
    (∃ r, sent (P2PListStreams s).trace = [r] ∧
      r.Command = "p2p/stream/ls" ∧ r.Args = [] ∧
      r.Opts = (s.newRequest "p2p/stream/ls" []).Opts.assign "headers" "true" ∧
      r.Opts.get "headers" = some "true" ∧
      (∀ k, k ≠ "headers" → r.Opts.get k = (s.newRequest "p2p/stream/ls" []).Opts.get k) ∧
      r.Opts.get "all" = s.baseOpts.get "all") := by
  refine ⟨⟨_, sent_listListeners s, rfl, rfl, rfl, rfl⟩,
    ⟨_, sent_listStreams s, rfl, rfl, rfl, Opts.get_assign_self _ _ _, ?_, ?_⟩⟩
  · intro k hk
    exact Opts.get_assign_other _ _ _ _ hk
  · exact Opts.get_assign_other _ _ _ _ (by decide)

/-- C10: for every selector `x` and flag `b`, the requests sent by
`P2PCloseListener(x, b)` and `P2PCloseStream(x, b)` have the same positional
arguments and the same options and differ in the operation name only; whenever
the transport gives both requests the same outcome, both operations return the
same error or both succeed. -/
theorem closeStream_mirrors_closeListener (s : Shell) (x : String) (b : Bool) :
    ∃ rL rS, sent (P2PCloseListener s x b).trace = [rL] ∧
      sent (P2PCloseStream s x b).trace = [rS] ∧
      rL.Args = rS.Args ∧ rL.Opts = rS.Opts ∧
      rL.Command = "p2p/listener/close" ∧ rS.Command = "p2p/stream/close" ∧
      rL ≠ rS ∧
      ∀ out, s.Send rL = out → s.Send rS = out →
        (P2PCloseListener s x b).err = exchangeError out ∧
        (P2PCloseStream s x b).err = exchangeError out := by
  refine ⟨_, _, sent_closeListener s x b, sent_closeStream s x b, rfl, rfl, rfl, rfl, ?_, ?_⟩
  · intro heq
    have hc := congrArg Request.Command heq
    simp only [closeRequest] at hc
    exact absurd hc (by decide)
  · intro out hL hS
    rw [err_closeListener, err_closeStream, hL, hS]
    exact ⟨rfl, rfl⟩

theorem closeStream_mirrors_closeListener_witness :
    (P2PCloseListener (stubShell (remoteError "not found")) "7" true).err
        = some (.other "not found") ∧
    (P2PCloseStream (stubShell (remoteError "not found")) "7" true).err
        = some (.other "not found") := by
  obtain ⟨rL, rS, _, _, _, _, _, _, _, h⟩ :=
    closeStream_mirrors_closeListener (stubShell (remoteError "not found")) "7" true
  exact h (remoteError "not found") rfl rfl

/-! ## Decoding -/

theorem storePtr_ok_none {α : Type} (goType : String) (zero : α) (fields : List String)
    (store : List Nat → String → Json → α → Except GoError α) (place : List Nat)
    (cur : Option α) (v : Json) :
    storePtr goType zero fields store place cur v = .ok none ↔ v = .null := by
  cases v with
  | null => simp [storePtr]
  | obj members =>
    simp only [storePtr]
    cases storeMembers fields store place 0 members (cur.getD zero) <;> simp
  | bool b => simp [storePtr]
  | num n => simp [storePtr]
  | str x => simp [storePtr]
  | arr xs => simp [storePtr]

theorem decodeBody_ok_none {α : Type} (goType : String) (zero : α) (fields : List String)
    (store : List Nat → String → Json → α → Except GoError α) (body : Body) :
    decodeBody goType zero fields store body = .ok none ↔ body = .value .null := by
  cases body with
  | invalid err => simp [decodeBody]
  | value v => simp [decodeBody, storePtr_ok_none]

theorem dialArgs_eq (peerID protocol maddr : String) :
    (if maddr ≠ "" then [peerID, protocol] ++ [maddr] else [peerID, protocol])
      = dialArgs peerID protocol maddr := by
  unfold dialArgs
  by_cases h : maddr = "" <;> simp [h]

theorem returns_openListener (s : Shell) (protocol maddr : String)
    (h : s.NewMultiaddr maddr = none) :
    ((P2POpenListener s protocol maddr).result, (P2POpenListener s protocol maddr).err)
      = afterSend decodeListener (s.Send (s.newRequest "p2p/listener/open" [protocol, maddr])) := by
  unfold P2POpenListener afterSend
  simp only [h]
  split
  · rfl
  · split
    · rfl
    · split <;> simp_all

theorem returns_streamDial (s : Shell) (peerID protocol maddr : String)
    (h : s.NewMultiaddr maddr = none) :
    ((P2PStreamDial s peerID protocol maddr).result, (P2PStreamDial s peerID protocol maddr).err)
      = afterSend decodeStream
          (s.Send (s.newRequest "p2p/stream/dial" (dialArgs peerID protocol maddr))) := by
  unfold P2PStreamDial afterSend
  simp only [h, dialArgs_eq]
  split
  · rfl
  · split
    · rfl
    · split <;> simp_all

theorem returns_listListeners (s : Shell) :
    ((P2PListListeners s).result, (P2PListListeners s).err)
      = afterSend decodeListenerList (s.Send (s.newRequest "p2p/listener/ls" [])) := by
  unfold P2PListListeners afterSend
  simp only
  split
  · rfl
  · split
    · rfl
    · split <;> simp_all

theorem returns_listStreams (s : Shell) :
    ((P2PListStreams s).result, (P2PListStreams s).err)
      = afterSend decodeStreamsList
          (s.Send { s.newRequest "p2p/stream/ls" [] with
            Opts := (s.newRequest "p2p/stream/ls" []).Opts.assign "headers" "true" }) := by
  unfold P2PListStreams afterSend FormatBool
  simp only [if_true]
  split
  · rfl
  · split
    · rfl
    · split <;> simp_all

theorem afterSend_not_both {α : Type} (dec : Body → Except GoError (Option α))
    (out : Except GoError Response) :
    ¬ ((afterSend dec out).1.isSome = true ∧ (afterSend dec out).2.isSome = true) := by
  unfold afterSend
  split
  · simp
  · split
    · simp
    · split <;> simp

theorem afterSend_neither_iff {α : Type} (dec : Body → Except GoError (Option α))
    (out : Except GoError Response) :
    ((afterSend dec out).1 = none ∧ (afterSend dec out).2 = none)
      ↔ ∃ resp, out = .ok resp ∧ resp.Error = none ∧ dec resp.Output = .ok none := by
  unfold afterSend
  split
  · simp
  · rename_i resp
    split
    · rename_i e he
      simp [he]
    · rename_i he
      split
      · rename_i e hd
        simp [hd]
      · rename_i r hd
        simp [hd, he]

theorem afterSend_fails {α : Type} (dec : Body → Except GoError (Option α))
    (out : Except GoError Response) (e : GoError)
    (h : out = .error e ∨ ∃ o, out = .ok { Output := o, Error := some e }) :
    afterSend dec out = (none, some e) := by
  rcases h with h | ⟨o, h⟩ <;> subst h <;> rfl

theorem afterSend_decode_error {α : Type} (dec : Body → Except GoError (Option α))
    (body : Body) (e : GoError) (h : dec body = .error e) :
    afterSend dec (okReply body) = (none, some e) := by
  simp [afterSend, okReply, h]

theorem afterSend_decode_ok {α : Type} (dec : Body → Except GoError (Option α))
    (body : Body) (r : Option α) (h : dec body = .ok r) :
    afterSend dec (okReply body) = (r, none) := by
  simp [afterSend, okReply, h]

/-! ## Failed exchanges are not decoded -/

theorem no_decode_openListener (s : Shell) (protocol maddr : String) (e : GoError)
    (h : s.failsWith (s.newRequest "p2p/listener/open" [protocol, maddr]) e) :
    Event.decode ∉ (P2POpenListener s protocol maddr).trace := by
  unfold P2POpenListener
  split
  · simp
  · rcases h with h | ⟨o, h⟩ <;> simp [h]

theorem no_decode_streamDial (s : Shell) (peerID protocol maddr : String) (e : GoError)
    (h : s.failsWith (s.newRequest "p2p/stream/dial" (dialArgs peerID protocol maddr)) e) :
    Event.decode ∉ (P2PStreamDial s peerID protocol maddr).trace := by
  unfold P2PStreamDial
  split
  · simp
  · simp only [dialArgs_eq]
    rcases h with h | ⟨o, h⟩ <;> simp [h]

theorem no_decode_listListeners (s : Shell) (e : GoError)
    (h : s.failsWith (s.newRequest "p2p/listener/ls" []) e) :
    Event.decode ∉ (P2PListListeners s).trace := by
  unfold P2PListListeners
  rcases h with h | ⟨o, h⟩ <;> simp [h]

theorem no_decode_listStreams (s : Shell) (e : GoError)
    (h : s.failsWith { s.newRequest "p2p/stream/ls" [] with
      Opts := (s.newRequest "p2p/stream/ls" []).Opts.assign "headers" "true" } e) :
    Event.decode ∉ (P2PListStreams s).trace := by
  unfold P2PListStreams FormatBool
  simp only [if_true]
  rcases h with h | ⟨o, h⟩ <;> simp [h]

theorem no_decode_closeListener (s : Shell) (p : String) (b : Bool) :
    Event.decode ∉ (P2PCloseListener s p b).trace := by
  unfold P2PCloseListener
  simp only
  split
  · simp
  · split <;> simp

theorem no_decode_closeStream (s : Shell) (x : String) (b : Bool) :
    Event.decode ∉ (P2PCloseStream s x b).trace := by
  unfold P2PCloseStream
  simp only
  split
  · simp
  · split <;> simp

theorem exchangeError_fails (out : Except GoError Response) (e : GoError)
    (h : out = .error e ∨ ∃ o, out = .ok { Output := o, Error := some e }) :
    exchangeError out = some e := by
  rcases h with h | ⟨o, h⟩ <;> subst h <;> rfl

/-! ## Result or error -/

theorem complete_or_neither {α : Type} (goType : String) (zero : α) (fields : List String)
    (store : List Nat → String → Json → α → Except GoError α) (r : Ret α)
    (out : Except GoError Response)
    (h : (r.result, r.err) = afterSend (decodeBody goType zero fields store) out) :
    (¬ (∃ resp, out = .ok resp ∧ resp.Error = none ∧ resp.Output = .value .null)
        → r.complete) ∧
    ((∃ resp, out = .ok resp ∧ resp.Error = none ∧ resp.Output = .value .null)
        → r.result = none ∧ r.err = none) := by
  have hboth := afterSend_not_both (decodeBody goType zero fields store) out
  have hnone := afterSend_neither_iff (decodeBody goType zero fields store) out
  simp only [decodeBody_ok_none] at hnone
  rw [← h] at hboth hnone
  simp only at hboth hnone
  refine ⟨fun hn => ?_, fun hy => hnone.mpr hy⟩
  unfold Ret.complete
  cases hr : r.result with
  | none =>
    cases he : r.err with
    | none => exact absurd (hnone.mp ⟨hr, he⟩) hn
    | some e => simp
  | some x =>
    cases he : r.err with
    | none => simp
    | some e => exact absurd ⟨by simp [hr], by simp [he]⟩ hboth

/-- C4 (as stated, refuted): against a successful reply whose body is the JSON
value `null`, each of `P2POpenListener`, `P2PListListeners`, `P2PStreamDial` and
`P2PListStreams` returns neither a result nor an error. -/
theorem null_reply_returns_neither :
    ¬ (P2POpenListener (stubShell (okReply (.value .null))) "echo" "/ip4/0.0.0.0/tcp/0").complete ∧
    ¬ (P2PListListeners (stubShell (okReply (.value .null)))).complete ∧
    ¬ (P2PStreamDial (stubShell (okReply (.value .null))) "QmPeer" "echo"
        "/ip4/0.0.0.0/tcp/0").complete ∧
    ¬ (P2PListStreams (stubShell (okReply (.value .null)))).complete := by
  refine ⟨?_, ?_, ?_, ?_⟩ <;> unfold Ret.complete <;> decide

/-- C4 (amended): each of `P2POpenListener`, `P2PListListeners`, `P2PStreamDial`
and `P2PListStreams` returns either a present result and no error or an error
and no result, unless the transport answered its request with a successful
reply whose body is the JSON value `null`; in that case it returns neither.
Against a successful reply whose body is the empty object `{}` each returns a
present zero-valued result and no error. -/
theorem result_xor_error_unless_null (s : Shell) (peerID protocol maddr : String) :
    ((¬ (s.NewMultiaddr maddr = none ∧
          s.repliesNull (s.newRequest "p2p/listener/open" [protocol, maddr]))
        → (P2POpenListener s protocol maddr).complete) ∧
      ((s.NewMultiaddr maddr = none ∧
          s.repliesNull (s.newRequest "p2p/listener/open" [protocol, maddr]))
        → (P2POpenListener s protocol maddr).result = none ∧
          (P2POpenListener s protocol maddr).err = none)) ∧
    ((¬ s.repliesNull (s.newRequest "p2p/listener/ls" []) → (P2PListListeners s).complete) ∧
      (s.repliesNull (s.newRequest "p2p/listener/ls" [])
        → (P2PListListeners s).result = none ∧ (P2PListListeners s).err = none)) ∧
    ((¬ (s.NewMultiaddr maddr = none ∧
          s.repliesNull (s.newRequest "p2p/stream/dial" (dialArgs peerID protocol maddr)))
        → (P2PStreamDial s peerID protocol maddr).complete) ∧
      ((s.NewMultiaddr maddr = none ∧
          s.repliesNull (s.newRequest "p2p/stream/dial" (dialArgs peerID protocol maddr)))
        → (P2PStreamDial s peerID protocol maddr).result = none ∧
          (P2PStreamDial s peerID protocol maddr).err = none)) ∧
    ((¬ s.repliesNull { s.newRequest "p2p/stream/ls" [] with
          Opts := (s.newRequest "p2p/stream/ls" []).Opts.assign "headers" "true" }
        → (P2PListStreams s).complete) ∧
      (s.repliesNull { s.newRequest "p2p/stream/ls" [] with
          Opts := (s.newRequest "p2p/stream/ls" []).Opts.assign "headers" "true" }
        → (P2PListStreams s).result = none ∧ (P2PListStreams s).err = none)) ∧
    (s.NewMultiaddr maddr = none →
      s.Send (s.newRequest "p2p/listener/open" [protocol, maddr]) = okReply (.value (.obj [])) →
      (P2POpenListener s protocol maddr).result = some { Protocol := "", Address := "" } ∧
      (P2POpenListener s protocol maddr).err = none) ∧
    (s.Send (s.newRequest "p2p/listener/ls" []) = okReply (.value (.obj [])) →
      (P2PListListeners s).result = some { Listeners := ⟨[], []⟩ } ∧
      (P2PListListeners s).err = none) ∧
    (s.NewMultiaddr maddr = none →
      s.Send (s.newRequest "p2p/stream/dial" (dialArgs peerID protocol maddr))
        = okReply (.value (.obj [])) →
      (P2PStreamDial s peerID protocol maddr).result = some { Protocol := "", Address := "" } ∧
      (P2PStreamDial s peerID protocol maddr).err = none) ∧
    (s.Send { s.newRequest "p2p/stream/ls" [] with
        Opts := (s.newRequest "p2p/stream/ls" []).Opts.assign "headers" "true" }
        = okReply (.value (.obj [])) →
      (P2PListStreams s).result = some { Streams := ⟨[], []⟩ } ∧
      (P2PListStreams s).err = none) := by
  refine ⟨?_, ?_, ?_, ?_, ?_, ?_, ?_, ?_⟩
  · cases hc : s.NewMultiaddr maddr with
    | some e =>
      refine ⟨fun _ => ?_, fun h => absurd h.1 (by simp)⟩
      simp [Ret.complete, P2POpenListener, hc]
    | none =>
      have h := complete_or_neither _ _ _ _ _ _ (returns_openListener s protocol maddr hc)
      exact ⟨fun hn => h.1 (fun hy => hn ⟨rfl, hy⟩), fun hy => h.2 hy.2⟩
  · exact complete_or_neither _ _ _ _ _ _ (returns_listListeners s)
  · cases hc : s.NewMultiaddr maddr with
    | some e =>
      refine ⟨fun _ => ?_, fun h => absurd h.1 (by simp)⟩
      simp [Ret.complete, P2PStreamDial, hc]
    | none =>
      have h := complete_or_neither _ _ _ _ _ _ (returns_streamDial s peerID protocol maddr hc)
      exact ⟨fun hn => h.1 (fun hy => hn ⟨rfl, hy⟩), fun hy => h.2 hy.2⟩
  · exact complete_or_neither _ _ _ _ _ _ (returns_listStreams s)
  · intro hc hs
    have h := returns_openListener s protocol maddr hc
    rw [hs, afterSend_decode_ok decodeListener (.value (.obj [])) (some ⟨"", ""⟩) rfl] at h
    exact ⟨(Prod.mk.inj h).1, (Prod.mk.inj h).2⟩
  · intro hs
    have h := returns_listListeners s
    rw [hs, afterSend_decode_ok decodeListenerList (.value (.obj [])) (some ⟨⟨[], []⟩⟩) rfl] at h
    exact ⟨(Prod.mk.inj h).1, (Prod.mk.inj h).2⟩
  · intro hc hs
    have h := returns_streamDial s peerID protocol maddr hc
    rw [hs, afterSend_decode_ok decodeStream (.value (.obj [])) (some ⟨"", ""⟩) rfl] at h
    exact ⟨(Prod.mk.inj h).1, (Prod.mk.inj h).2⟩
  · intro hs
    have h := returns_listStreams s
    rw [hs, afterSend_decode_ok decodeStreamsList (.value (.obj [])) (some ⟨⟨[], []⟩⟩) rfl] at h
    exact ⟨(Prod.mk.inj h).1, (Prod.mk.inj h).2⟩

theorem result_xor_error_unless_null_witness :
    (P2POpenListener (stubShell (okReply (.value (.obj [])))) "echo"
      "/ip4/0.0.0.0/tcp/0").complete ∧
    ((P2PListListeners (stubShell (okReply (.value .null)))).result = none ∧
      (P2PListListeners (stubShell (okReply (.value .null)))).err = none) ∧
    ((P2POpenListener (stubShell (okReply (.value (.obj [])))) "echo"
        "/ip4/0.0.0.0/tcp/0").result = some { Protocol := "", Address := "" } ∧
      (P2POpenListener (stubShell (okReply (.value (.obj [])))) "echo"
        "/ip4/0.0.0.0/tcp/0").err = none) :=
  ⟨(result_xor_error_unless_null (stubShell (okReply (.value (.obj [])))) "QmPeer" "echo"
      "/ip4/0.0.0.0/tcp/0").1.1
      (by
        rintro ⟨_, resp, h1, _, h3⟩
        have h := Except.ok.inj h1
        rw [← h] at h3
        exact absurd h3 (by simp)),
   (result_xor_error_unless_null (stubShell (okReply (.value .null))) "QmPeer" "echo"
      "/ip4/0.0.0.0/tcp/0").2.1.2 ⟨_, rfl, rfl, rfl⟩,
   (result_xor_error_unless_null (stubShell (okReply (.value (.obj [])))) "QmPeer" "echo"
      "/ip4/0.0.0.0/tcp/0").2.2.2.2.1 (by decide) rfl⟩

/-! ## Error propagation -/

/-- C5: for each of the six operations, once local validation has passed, a
transport failure `e` or a remote error `e` in the reply is returned as it is,
with no result, and the reply body is not decoded. -/
theorem errors_propagate (s : Shell) (e : GoError) (peerID protocol maddr handlerID : String)
    (closeAll : Bool) :
    (s.NewMultiaddr maddr = none →
      s.failsWith (s.newRequest "p2p/listener/open" [protocol, maddr]) e →
      (P2POpenListener s protocol maddr).result = none ∧
      (P2POpenListener s protocol maddr).err = some e ∧
      Event.decode ∉ (P2POpenListener s protocol maddr).trace) ∧
    (s.failsWith (closeRequest s "p2p/listener/close" protocol closeAll) e →
      (P2PCloseListener s protocol closeAll).err = some e ∧
      Event.decode ∉ (P2PCloseListener s protocol closeAll).trace) ∧
    (s.failsWith (s.newRequest "p2p/listener/ls" []) e →
      (P2PListListeners s).result = none ∧
      (P2PListListeners s).err = some e ∧
      Event.decode ∉ (P2PListListeners s).trace) ∧
    (s.NewMultiaddr maddr = none →
      s.failsWith (s.newRequest "p2p/stream/dial" (dialArgs peerID protocol maddr)) e →
      (P2PStreamDial s peerID protocol maddr).result = none ∧
      (P2PStreamDial s peerID protocol maddr).err = some e ∧
      Event.decode ∉ (P2PStreamDial s peerID protocol maddr).trace) ∧
    (s.failsWith (closeRequest s "p2p/stream/close" handlerID closeAll) e →
      (P2PCloseStream s handlerID closeAll).err = some e ∧
      Event.decode ∉ (P2PCloseStream s handlerID closeAll).trace) ∧
    (s.failsWith { s.newRequest "p2p/stream/ls" [] with
        Opts := (s.newRequest "p2p/stream/ls" []).Opts.assign "headers" "true" } e →
      (P2PListStreams s).result = none ∧
      (P2PListStreams s).err = some e ∧
      Event.decode ∉ (P2PListStreams s).trace) := by
  refine ⟨?_, ?_, ?_, ?_, ?_, ?_⟩
  · intro hc hf
    have h := returns_openListener s protocol maddr hc
    rw [afterSend_fails _ _ e hf] at h
    exact ⟨(Prod.mk.inj h).1, (Prod.mk.inj h).2, no_decode_openListener s protocol maddr e hf⟩
  · intro hf
    rw [err_closeListener]
    exact ⟨exchangeError_fails _ e hf, no_decode_closeListener s protocol closeAll⟩
  · intro hf
    have h := returns_listListeners s
    rw [afterSend_fails _ _ e hf] at h
    exact ⟨(Prod.mk.inj h).1, (Prod.mk.inj h).2, no_decode_listListeners s e hf⟩
  · intro hc hf
    have h := returns_streamDial s peerID protocol maddr hc
    rw [afterSend_fails _ _ e hf] at h
    exact ⟨(Prod.mk.inj h).1, (Prod.mk.inj h).2,
      no_decode_streamDial s peerID protocol maddr e hf⟩
  · intro hf
    rw [err_closeStream]
    exact ⟨exchangeError_fails _ e hf, no_decode_closeStream s handlerID closeAll⟩
  · intro hf
    have h := returns_listStreams s
    rw [afterSend_fails _ _ e hf] at h
    exact ⟨(Prod.mk.inj h).1, (Prod.mk.inj h).2, no_decode_listStreams s e hf⟩

theorem errors_propagate_witness :
    (P2PCloseListener (stubShell (remoteError "not found")) "p1" false).err
      = some (.other "not found") ∧
    Event.decode ∉ (P2PCloseListener (stubShell (remoteError "not found")) "p1" false).trace :=
  (errors_propagate (stubShell (remoteError "not found")) (.other "not found") "QmPeer" "p1"
    "/ip4/0.0.0.0/tcp/0" "7" false).2.1 (Or.inr ⟨_, rfl⟩)

/-! ## Decode failures and the round trip -/

theorem matchField_mem (fields : List String) (key f : String)
    (h : matchField fields key = some f) : f ∈ fields := by
  unfold matchField at h
  split at h
  · rename_i g hg
    cases h
    exact List.mem_of_find?_eq_some hg
  · exact List.mem_of_find?_eq_some h

theorem storeString_failed (place : List Nat) (cur : String) (v : Json) :
    failed (storeString place cur v) = !v.fitsString := by
  cases v <;> rfl

theorem storeMembers_failed {α : Type} (fields : List String)
    (store : List Nat → String → Json → α → Except GoError α) (ok : Json → Bool)
    (h : ∀ place f v acc, f ∈ fields → failed (store place f v acc) = !ok v)
    (place : List Nat) (members : List (String × Json)) :
    ∀ (i : Nat) (acc : α),
      failed (storeMembers fields store place i members acc) = !fitsMembers fields ok members := by
  induction members with
  | nil => intro i acc; rfl
  | cons kv rest ih =>
    obtain ⟨key, v⟩ := kv
    intro i acc
    simp only [storeMembers, fitsMembers, List.all_cons]
    cases hm : matchField fields key with
    | none =>
      simp only [Option.isNone_none, Bool.true_or, Bool.true_and]
      exact ih (i + 1) acc
    | some f =>
      have hf := h (place ++ [i]) f v acc (matchField_mem fields key f hm)
      simp only [Option.isNone_some, Bool.false_or]
      cases hs : store (place ++ [i]) f v acc with
      | error e =>
        rw [hs] at hf
        have hok : ok v = false := by simpa [failed] using hf
        simp [failed, hok]
      | ok acc' =>
        rw [hs] at hf
        have hok : ok v = true := by simpa [failed] using hf
        simp only [hok, Bool.true_and]
        exact ih (i + 1) acc'

theorem storePtr_failed {α : Type} (goType : String) (zero : α) (fields : List String)
    (store : List Nat → String → Json → α → Except GoError α) (ok : Json → Bool)
    (h : ∀ place f v acc, f ∈ fields → failed (store place f v acc) = !ok v)
    (place : List Nat) (cur : Option α) (v : Json) :
    failed (storePtr goType zero fields store place cur v) = !v.fitsPtr fields ok := by
  cases v with
  | obj members =>
    have hm := storeMembers_failed fields store ok h place members 0 (cur.getD zero)
    simp only [storePtr, Json.fitsPtr]
    cases hs : storeMembers fields store place 0 members (cur.getD zero) with
    | error e => rw [hs] at hm; simpa [failed] using hm
    | ok x => rw [hs] at hm; simpa [failed] using hm
  | null => rfl
  | bool b => rfl
  | num n => rfl
  | str x => rfl
  | arr xs => rfl

theorem storePtrs_failed {α : Type} (goType : String) (zero : α) (fields : List String)
    (store : List Nat → String → Json → α → Except GoError α) (ok : Json → Bool)
    (h : ∀ place f v acc, f ∈ fields → failed (store place f v acc) = !ok v)
    (place : List Nat) (elems : List Json) :
    ∀ (i : Nat) (backing : List (Option α)),
      failed (storePtrs goType zero fields store place i elems backing)
        = !elems.all (Json.fitsPtr fields ok) := by
  induction elems with
  | nil => intro i backing; rfl
  | cons v rest ih =>
    intro i backing
    have hp := storePtr_failed goType zero fields store ok h (place ++ [i])
      backing.head?.join v
    have hr := ih (i + 1) backing.tail
    simp only [storePtrs, List.all_cons]
    cases hs : storePtr goType zero fields store (place ++ [i]) backing.head?.join v with
    | error e =>
      rw [hs] at hp
      have hok : v.fitsPtr fields ok = false := by simpa [failed] using hp
      simp [failed, hok]
    | ok x =>
      rw [hs] at hp
      have hok : v.fitsPtr fields ok = true := by simpa [failed] using hp
      simp only [hok, Bool.true_and]
      cases hs2 : storePtrs goType zero fields store place (i + 1) rest backing.tail with
      | error e => rw [hs2] at hr; simpa [failed] using hr
      | ok xs => rw [hs2] at hr; simpa [failed] using hr

theorem storeSlice_failed {α : Type} (goType : String) (zero : α) (fields : List String)
    (store : List Nat → String → Json → α → Except GoError α) (ok : Json → Bool)
    (h : ∀ place f v acc, f ∈ fields → failed (store place f v acc) = !ok v)
    (place : List Nat) (cur : Slice α) (v : Json) :
    failed (storeSlice goType zero fields store place cur v) = !v.fitsSlice fields ok := by
  cases v with
  | arr elems =>
    cases elems with
    | nil => rfl
    | cons x xs =>
      have hp := storePtrs_failed goType zero fields store ok h place (x :: xs) 0
        (cur.elems ++ cur.spare)
      simp only [storeSlice, Json.fitsSlice]
      cases hs : storePtrs goType zero fields store place 0 (x :: xs)
          (cur.elems ++ cur.spare) with
      | error e => rw [hs] at hp; simpa [failed] using hp
      | ok ys => rw [hs] at hp; simpa [failed] using hp
  | null => rfl
  | bool b => rfl
  | num n => rfl
  | str x => rfl
  | obj ms => rfl

theorem listener_store_failed (place : List Nat) (f : String) (v : Json)
    (l : P2PListener) (hf : f ∈ ["Protocol", "Address"]) :
    failed (P2PListener.store place f v l) = !v.fitsString := by
  have hs := storeString_failed place
  simp only [List.mem_cons, List.mem_singleton, List.not_mem_nil, or_false] at hf
  rcases hf with rfl | rfl
  · have h := hs l.Protocol v
    simp only [P2PListener.store, if_true]
    cases hx : storeString place l.Protocol v <;> rw [hx] at h <;> simpa [failed] using h
  · have h := hs l.Address v
    have hne : ¬ ("Address" = "Protocol") := by decide
    simp only [P2PListener.store, hne, if_false, if_true]
    cases hx : storeString place l.Address v <;> rw [hx] at h <;> simpa [failed] using h

theorem streamEntry_store_failed (place : List Nat) (f : String) (v : Json)
    (x : P2PStreamsListEntry) (hf : f ∈ P2PStreamsListEntry.fields) :
    failed (P2PStreamsListEntry.store place f v x) = !v.fitsString := by
  simp only [P2PStreamsListEntry.fields, List.mem_cons, List.mem_singleton,
    List.not_mem_nil, or_false] at hf
  rcases hf with rfl | rfl | rfl | rfl | rfl | rfl <;>
    cases v <;> simp [P2PStreamsListEntry.store, storeString, failed, Json.fitsString]

theorem listenerList_store_failed (place : List Nat) (f : String) (v : Json)
    (l : P2PListenerList) (hf : f ∈ ["Listeners"]) :
    failed (P2PListenerList.store place f v l)
      = !v.fitsSlice ["Protocol", "Address"] Json.fitsString := by
  have h := storeSlice_failed "shell.P2PListener" ⟨"", ""⟩ ["Protocol", "Address"]
    P2PListener.store Json.fitsString
    (fun pl g w acc hg => listener_store_failed pl g w acc hg) place l.Listeners v
  simp only [List.mem_singleton] at hf
  subst hf
  simp only [P2PListenerList.store, if_true]
  cases hs : storeSlice "shell.P2PListener" ⟨"", ""⟩ ["Protocol", "Address"]
      P2PListener.store place l.Listeners v <;> rw [hs] at h <;> simpa [failed] using h

theorem streamsList_store_failed (place : List Nat) (f : String) (v : Json)
    (l : P2PStreamsList) (hf : f ∈ ["Streams"]) :
    failed (P2PStreamsList.store place f v l)
      = !v.fitsSlice P2PStreamsListEntry.fields Json.fitsString := by
  have h := storeSlice_failed P2PStreamsListEntry.goType P2PStreamsListEntry.zero
    P2PStreamsListEntry.fields P2PStreamsListEntry.store Json.fitsString
    (fun pl g w acc hg => streamEntry_store_failed pl g w acc hg) place l.Streams v
  simp only [List.mem_singleton] at hf
  subst hf
  simp only [P2PStreamsList.store, if_true]
  cases hs : storeSlice P2PStreamsListEntry.goType P2PStreamsListEntry.zero
      P2PStreamsListEntry.fields P2PStreamsListEntry.store place l.Streams v <;>
    rw [hs] at h <;> simpa [failed] using h

theorem decodeListenerList_failed (body : Body) :
    failed (decodeListenerList body) = !body.fitsListenerList := by
  cases body with
  | invalid err => rfl
  | value v =>
    exact storePtr_failed "shell.P2PListenerList" ⟨⟨[], []⟩⟩ ["Listeners"]
      P2PListenerList.store _
      (fun pl g w acc hg => listenerList_store_failed pl g w acc hg) [] none v

theorem decodeStreamsList_failed (body : Body) :
    failed (decodeStreamsList body) = !body.fitsStreamsList := by
  cases body with
  | invalid err => rfl
  | value v =>
    exact storePtr_failed "shell.P2PStreamsList" ⟨⟨[], []⟩⟩ ["Streams"]
      P2PStreamsList.store _
      (fun pl g w acc hg => streamsList_store_failed pl g w acc hg) [] none v

theorem error_of_failed {α : Type} (r : Except GoError α) (h : failed r = true) :
    ∃ e, r = .error e := by
  cases r with
  | error e => exact ⟨e, rfl⟩
  | ok x => exact absurd h (by simp [failed])

theorem ok_of_not_failed {α : Type} (r : Except GoError α) (h : failed r = false) :
    ∃ x, r = .ok x := by
  cases r with
  | error e => exact absurd h (by simp [failed])
  | ok x => exact ⟨x, rfl⟩

/-- C7 (as stated, refuted): the bodies `{}` and `null` do not have the shape of
a list reply, yet against them the list operations return no decode error: for
`{}` they return a zero-valued empty set, for `null` neither a set nor an
error. -/
theorem unshaped_list_reply_accepted :
    (Body.hasListShape "Listeners" ["Protocol", "Address"] (.value (.obj [])) = false ∧
      (P2PListListeners (stubShell (okReply (.value (.obj []))))).result
        = some { Listeners := ⟨[], []⟩ } ∧
      (P2PListListeners (stubShell (okReply (.value (.obj []))))).err = none) ∧
    (Body.hasListShape "Streams" P2PStreamsListEntry.fields (.value (.obj [])) = false ∧
      (P2PListStreams (stubShell (okReply (.value (.obj []))))).result
        = some { Streams := ⟨[], []⟩ } ∧
      (P2PListStreams (stubShell (okReply (.value (.obj []))))).err = none) ∧
    (Body.hasListShape "Listeners" ["Protocol", "Address"] (.value .null) = false ∧
      (P2PListListeners (stubShell (okReply (.value .null)))).result = none ∧
      (P2PListListeners (stubShell (okReply (.value .null)))).err = none) := by
  refine ⟨⟨rfl, ?_, ?_⟩, ⟨rfl, ?_, ?_⟩, ⟨rfl, ?_, ?_⟩⟩ <;> decide

/-- C7 (amended): when the transport answers a list request with a successful
reply whose body the list type does not take (it does not scan as JSON, or its
value is neither `null` nor an object, or a member naming the list field is
neither `null` nor an array, or an element of that array is neither `null` nor
an object, or a member of an element naming a string field is neither a string
nor `null`), `P2PListListeners` and `P2PListStreams` return the decoder's error
and no set, which differs from an empty set; for every other body of a
successful reply they return no error. -/
theorem list_decode_failure (s : Shell) (body : Body) :
    (s.Send (s.newRequest "p2p/listener/ls" []) = okReply body →
      (body.fitsListenerList = false →
        ∃ e, decodeListenerList body = .error e ∧
          (P2PListListeners s).result = none ∧ (P2PListListeners s).err = some e ∧
          (P2PListListeners s).result ≠ some { Listeners := ⟨[], []⟩ }) ∧
      (body.fitsListenerList = true → (P2PListListeners s).err = none)) ∧
    (s.Send { s.newRequest "p2p/stream/ls" [] with
        Opts := (s.newRequest "p2p/stream/ls" []).Opts.assign "headers" "true" }
        = okReply body →
      (body.fitsStreamsList = false →
        ∃ e, decodeStreamsList body = .error e ∧
          (P2PListStreams s).result = none ∧ (P2PListStreams s).err = some e ∧
          (P2PListStreams s).result ≠ some { Streams := ⟨[], []⟩ }) ∧
      (body.fitsStreamsList = true → (P2PListStreams s).err = none)) := by
  refine ⟨fun hs => ⟨fun hfit => ?_, fun hfit => ?_⟩, fun hs => ⟨fun hfit => ?_, fun hfit => ?_⟩⟩
  · obtain ⟨e, hd⟩ := error_of_failed (decodeListenerList body)
      (by rw [decodeListenerList_failed, hfit]; rfl)
    have h := returns_listListeners s
    rw [hs, afterSend_decode_error _ _ e hd] at h
    have hr := (Prod.mk.inj h).1
    exact ⟨e, hd, hr, (Prod.mk.inj h).2, by simp [hr]⟩
  · obtain ⟨x, hd⟩ := ok_of_not_failed (decodeListenerList body)
      (by rw [decodeListenerList_failed, hfit]; rfl)
    have h := returns_listListeners s
    rw [hs, afterSend_decode_ok _ _ x hd] at h
    exact (Prod.mk.inj h).2
  · obtain ⟨e, hd⟩ := error_of_failed (decodeStreamsList body)
      (by rw [decodeStreamsList_failed, hfit]; rfl)
    have h := returns_listStreams s
    rw [hs, afterSend_decode_error _ _ e hd] at h
    have hr := (Prod.mk.inj h).1
    exact ⟨e, hd, hr, (Prod.mk.inj h).2, by simp [hr]⟩
  · obtain ⟨x, hd⟩ := ok_of_not_failed (decodeStreamsList body)
      (by rw [decodeStreamsList_failed, hfit]; rfl)
    have h := returns_listStreams s
    rw [hs, afterSend_decode_ok _ _ x hd] at h
    exact (Prod.mk.inj h).2

theorem list_decode_failure_witness :
    (∃ e, decodeListenerList (.invalid (.jsonInvalid "unexpected end of JSON input"))
        = .error e ∧
      (P2PListListeners (stubShell (okReply (.invalid (.jsonInvalid
        "unexpected end of JSON input"))))).result = none ∧
      (P2PListListeners (stubShell (okReply (.invalid (.jsonInvalid
        "unexpected end of JSON input"))))).err = some e ∧
      (P2PListListeners (stubShell (okReply (.invalid (.jsonInvalid
        "unexpected end of JSON input"))))).result ≠ some { Listeners := ⟨[], []⟩ }) ∧
    (∃ e, decodeStreamsList (.value (.obj [("Streams", .arr [.obj [("HandlerID", .num "7")]])]))
        = .error e ∧
      (P2PListStreams (stubShell (okReply
        (.value (.obj [("Streams", .arr [.obj [("HandlerID", .num "7")]])]))))).result = none ∧
      (P2PListStreams (stubShell (okReply
        (.value (.obj [("Streams", .arr [.obj [("HandlerID", .num "7")]])]))))).err = some e ∧
      (P2PListStreams (stubShell (okReply
        (.value (.obj [("Streams", .arr [.obj [("HandlerID", .num "7")]])]))))).result
        ≠ some { Streams := ⟨[], []⟩ }) ∧
    (P2PListListeners (stubShell (okReply
      (.value (.obj [("Listeners", .arr [])]))))).err = none :=
  ⟨((list_decode_failure (stubShell (okReply (.invalid (.jsonInvalid
        "unexpected end of JSON input"))))
      (.invalid (.jsonInvalid "unexpected end of JSON input"))).1 rfl).1 rfl,
   ((list_decode_failure (stubShell (okReply
        (.value (.obj [("Streams", .arr [.obj [("HandlerID", .num "7")]])]))))
      (.value (.obj [("Streams", .arr [.obj [("HandlerID", .num "7")]])]))).2 rfl).1
      (by decide),
   ((list_decode_failure (stubShell (okReply (.value (.obj [("Listeners", .arr [])]))))
      (.value (.obj [("Listeners", .arr [])]))).1 rfl).2 (by decide)⟩

theorem decodeListenerList_invalid (err : GoError) :
    decodeListenerList (.invalid err) = .error err := rfl

theorem decodeStreamsList_invalid (err : GoError) :
    decodeStreamsList (.invalid err) = .error err := rfl

theorem decodeListenerList_array (elems : List Json) :
    decodeListenerList (.value (.arr elems))
      = .error (.unmarshalType "array" "shell.P2PListenerList" []) := rfl

theorem decodeListenerList_empty :
    decodeListenerList (.value (.obj [("Listeners", .arr [])]))
      = .ok (some { Listeners := ⟨[], []⟩ }) := by
  have h : matchField ["Listeners"] "Listeners" = some "Listeners" := by decide
  simp [decodeListenerList, decodeBody, storePtr, storeMembers, h, P2PListenerList.store,
    storeSlice, storePtrs]

theorem decodeListener_object (p a : String) :
    decodeListener (.value (.obj [("Protocol", .str p), ("Address", .str a)]))
      = .ok (some { Protocol := p, Address := a }) := by
  have h1 : matchField ["Protocol", "Address"] "Protocol" = some "Protocol" := by decide
  have h2 : matchField ["Protocol", "Address"] "Address" = some "Address" := by decide
  simp [decodeListener, decodeBody, storePtr, storeMembers, h1, h2, P2PListener.store,
    storeString]

/-- C9: when the codec accepts `a` and the transport answers the listener-open
request for `p`, `a` with a successful reply whose body is the JSON object
`{"Protocol": p, "Address": a}`, `P2POpenListener(p, a)` returns the listener
with `Protocol = p` and `Address = a` and no error. -/
theorem open_listener_round_trip (s : Shell) (p a : String)
    (hc : s.NewMultiaddr a = none)
    (hs : s.Send (s.newRequest "p2p/listener/open" [p, a])
      = okReply (.value (.obj [("Protocol", .str p), ("Address", .str a)]))) :
    (P2POpenListener s p a).result = some { Protocol := p, Address := a } ∧
    (P2POpenListener s p a).err = none := by
  have h := returns_openListener s p a hc
  rw [hs, afterSend_decode_ok _ _ _ (decodeListener_object p a)] at h
  exact ⟨(Prod.mk.inj h).1, (Prod.mk.inj h).2⟩

theorem open_listener_round_trip_witness :
    (P2POpenListener
        (stubShell (okReply (.value (.obj [("Protocol", .str "echo"),
          ("Address", .str "/ip4/0.0.0.0/tcp/0")]))))
        "echo" "/ip4/0.0.0.0/tcp/0").result
      = some { Protocol := "echo", Address := "/ip4/0.0.0.0/tcp/0" } ∧
    (P2POpenListener
        (stubShell (okReply (.value (.obj [("Protocol", .str "echo"),
          ("Address", .str "/ip4/0.0.0.0/tcp/0")]))))
        "echo" "/ip4/0.0.0.0/tcp/0").err = none :=
  open_listener_round_trip
    (stubShell (okReply (.value (.obj [("Protocol", .str "echo"),
      ("Address", .str "/ip4/0.0.0.0/tcp/0")]))))
    "echo" "/ip4/0.0.0.0/tcp/0" (by decide) rfl

end P2P
